import Mathlib

/-! Formal model of the Volume Annotation Engine implemented in
frontend/src/views/AnnotatePage.vue of the Center_Annotation repository.
Coordinates are modelled as integers: at every point the modelled code uses
them, the JavaScript numbers are integers (pixel inputs are rounded before the
mapped arithmetic, volume extents and slice indices are integral). The
asynchronous handlers are modelled as state transformers over the reactive
refs of the component, split at their await points where interleaving with
other handlers matters. -/

namespace CenterAnnotation

/-- Viewing axes of the 3-D volume (axis selector of AnnotatePage.vue). -/
inductive Axis
  | sagittal
  | coronal
  | axial
  deriving DecidableEq, Repr

/-- One labeled 3-D point in volume space, as built in handleCanvasClick
(AnnotatePage.vue lines 662-667) and returned by the inference endpoint. -/
structure Annotation where
  label : String
  x : Int
  y : Int
  z : Int
  deriving DecidableEq, Repr

/-- Per-axis extents of the loaded volume: the body of the image info
response consumed by loadImageInfo (lines 318-330). -/
structure ImageInfo where
  sagittal_range : Int
  coronal_range : Int
  axial_range : Int
  deriving DecidableEq, Repr

/-- Unscaled canvas pixel position. -/
structure CanvasPos where
  x : Int
  y : Int
  deriving DecidableEq, Repr

/-- Body of an inference response as read by runInference (lines 829-834). -/
structure InferenceResponse where
  success : Bool
  annotations : List Annotation
  z_index : Int
  deriving DecidableEq, Repr

/-- Reactive state of the AnnotatePage component: the refs declared at lines
206-250 that the verified claims touch. -/
structure PageState where
  images : List String
  currentIndex : Nat
  currentAxis : Axis
  sliceIndex : Int
  maxSliceIndex : Int
  imageInfo : Option ImageInfo
  currentLabel : String
  annotationsMap : List (String × List Annotation)
  suggestedAnnotations : List Annotation
  suggestedZIndex : Option Int
  isLoadingSuggestion : Bool
  hasSuggestion : Bool
  message : String
  messageType : String
  deriving DecidableEq, Repr

/-- Read annotationsMap.value[file], with the || [] default the component
applies at its read sites (currentAnnotations, line 274). -/
def getMap : List (String × List Annotation) → String → List Annotation
  | [], _ => []
  | (k, v) :: rest, file => if k = file then v else getMap rest file

/-- Assignment annotationsMap.value[file] = anns on a JavaScript object:
replaces the binding when the key already exists, otherwise adds it. -/
def setMap : List (String × List Annotation) → String → List Annotation →
    List (String × List Annotation)
  | [], file, anns => [(file, anns)]
  | (k, v) :: rest, file, anns =>
    if k = file then (file, anns) :: rest else (k, v) :: setMap rest file anns

/-- Computed currentFilename (line 271): images.value[currentIndex.value],
with the || fallback to the empty string past the end. -/
def currentFilename (s : PageState) : String :=
  (s.images.get? s.currentIndex).getD ""

/-- Computed currentAnnotations (lines 273-275). -/
def currentAnnotations (s : PageState) : List Annotation :=
  getMap s.annotationsMap (currentFilename s)

/-- Source getSliceIndexFromAnnotation (lines 540-549): the axis-fixed volume
coordinate of an annotation record. -/
def getSliceIndexFromAnnotation (axis : Axis) (ann : Annotation) : Int :=
  match axis with
  | .sagittal => ann.x
  | .coronal => ann.y
  | .axial => ann.z

/-- Source getCanvasPosFromAnnotation (lines 551-563): volume coordinates to
unscaled canvas pixels; h is the height of the unscaled raster. -/
def getCanvasPosFromAnnotation (axis : Axis) (h : Int) (ann : Annotation) :
    CanvasPos :=
  match axis with
  | .sagittal => ⟨ann.y, h - 1 - ann.z⟩
  | .coronal => ⟨ann.x, h - 1 - ann.z⟩
  | .axial => ⟨ann.x, h - 1 - ann.y⟩

/-- Pixel-to-volume conversion inside handleCanvasClick (lines 632-651).
canvasX and canvasY are the unscaled pixel coordinates the handler has already
rounded to integers, so the Math.round around h - 1 - canvasY is the identity
and is dropped. -/
def clickToVolume (axis : Axis) (sliceIndex canvasX canvasY h : Int) :
    Int × Int × Int :=
  match axis with
  | .sagittal => (sliceIndex, canvasX, h - 1 - canvasY)
  | .coronal => (canvasX, sliceIndex, h - 1 - canvasY)
  | .axial => (canvasX, h - 1 - canvasY, sliceIndex)

/-- JavaScript Array.prototype.findIndex on the label predicate used at lines
658-660 and 863-865: the index of the first entry carrying the given label,
-1 when there is none. -/
def findIndexLabel (store : List Annotation) (label : String) : Int :=
  match store.findIdx? (fun ann => ann.label == label) with
  | some i => (i : Int)
  | none => -1

/-- Replace-by-label insertion shared by handleCanvasClick (lines 658-673) and
acceptSuggestedAnnotations (lines 862-872): findIndex on the label, assignment
at that index when it is non-negative, push otherwise. -/
def upsert (store : List Annotation) (a : Annotation) : List Annotation :=
  let existingIndex : Int := findIndexLabel store a.label
  if 0 ≤ existingIndex then store.set existingIndex.toNat a
  else store ++ [a]

/-- Source handleCanvasClick (lines 614-677), entered at the point where the
click has been converted to unscaled integer pixel coordinates canvasX and
canvasY; h is the unscaled raster height (originalImageData height). The
drawCanvas call only redraws and the showMessage timeout is not modelled. -/
def handleCanvasClick (s : PageState) (canvasX canvasY h : Int) : PageState :=
  if s.currentLabel = "" then
    { s with message := "Please select a Label first", messageType := "error" }
  else
    let xyz := clickToVolume s.currentAxis s.sliceIndex canvasX canvasY h
    let newAnnotation : Annotation :=
      ⟨s.currentLabel, xyz.1, xyz.2.1, xyz.2.2⟩
    let file := currentFilename s
    let store := getMap s.annotationsMap file
    { s with
      annotationsMap := setMap s.annotationsMap file (upsert store newAnnotation),
      message := "Annotated " ++ s.currentLabel ++ ": (" ++ toString xyz.1 ++
        ", " ++ toString xyz.2.1 ++ ", " ++ toString xyz.2.2 ++ ")",
      messageType := "success" }

/-- Per-pixel value computed by applyBinarize (lines 487-489): the mean of the
three color channels, a JavaScript float, compared strictly against the
threshold. -/
def binarizeValue (threshold : Int) (r g b : Nat) : Nat :=
  let gray : Rat := ((r : Rat) + (g : Rat) + (b : Rat)) / 3
  if gray > (threshold : Rat) then 255 else 0

/-- Source applyBinarize (lines 484-494): the loop walks the RGBA byte buffer
in strides of four, overwrites the three color channels with the binarized
value and leaves the alpha byte; ImageData buffers always have a length
divisible by four, so a shorter tail never occurs and is left untouched. -/
def applyBinarize (threshold : Int) : List Nat → List Nat
  | r :: g :: b :: a :: rest =>
    let v := binarizeValue threshold r g b
    v :: v :: v :: a :: applyBinarize threshold rest
  | rest => rest

/-- Per-axis extent selected by updateMaxSliceIndex (lines 332-345). -/
def axisRange (axis : Axis) (info : ImageInfo) : Int :=
  match axis with
  | .sagittal => info.sagittal_range
  | .coronal => info.coronal_range
  | .axial => info.axial_range

/-- Source updateMaxSliceIndex (lines 332-345): no-op without imageInfo, else
the extent of the current axis minus one. -/
def updateMaxSliceIndex (s : PageState) : PageState :=
  match s.imageInfo with
  | none => s
  | some info => { s with maxSliceIndex := axisRange s.currentAxis info - 1 }

/-- Source changeAxis (lines 771-776); Math.floor division is Int.fdiv. The
awaited loadSlice only refetches and redraws the raster. -/
def changeAxis (s : PageState) (axis : Axis) : PageState :=
  let s1 := { s with currentAxis := axis }
  let s2 := updateMaxSliceIndex s1
  { s2 with sliceIndex := Int.fdiv s2.maxSliceIndex 2 }

/-- Source loadImageInfo (lines 318-330) on a successful metadata fetch:
stores the response, recomputes maxSliceIndex for the current axis, then
resets sliceIndex to the middle slice. -/
def loadImageInfoSuccess (s : PageState) (info : ImageInfo) : PageState :=
  let s1 := { s with imageInfo := some info }
  let s2 := updateMaxSliceIndex s1
  { s2 with sliceIndex := Int.fdiv s2.maxSliceIndex 2 }

/-- Source runInference up to its first await (lines 815-827): a request while
one is already in flight is rejected, otherwise the loading flag is set and
the previous suggestion set is cleared; the request is issued for the file
that is current at this moment. -/
def runInferenceStart (s : PageState) : PageState :=
  if s.isLoadingSuggestion then s
  else
    { s with isLoadingSuggestion := true, suggestedAnnotations := [],
             hasSuggestion := false }

/-- Source runInference from the point the awaited request resolves (lines
829-850), including the catch and finally blocks. resp is the response of the
request issued earlier by runInferenceStart; the code applies it without
comparing the file it was issued for against the file that is current now. -/
def runInferenceResolve (s : PageState)
    (resp : Except String InferenceResponse) : PageState :=
  match resp with
  | .ok r =>
    if r.success then
      let s1 := { s with suggestedAnnotations := r.annotations,
                         suggestedZIndex := some r.z_index,
                         hasSuggestion := true }
      let s2 := if s1.currentAxis ≠ Axis.axial then changeAxis s1 .axial else s1
      let s3 := { s2 with sliceIndex := r.z_index }
      { s3 with
        message := "Model inference completed. Review and accept if correct."
        messageType := "success", isLoadingSuggestion := false }
    else { s with isLoadingSuggestion := false }
  | .error e =>
    { s with message := "Inference failed: " ++ e, messageType := "error",
             isLoadingSuggestion := false }

/-- Source loadExistingAnnotations (lines 382-405): clears any previous
suggestions, then either stores the fetched annotation list (when non-empty)
or fires runInference; a failed fetch also fires runInference. -/
def loadExistingAnnotations (s : PageState)
    (fetched : Except String (List Annotation)) : PageState :=
  let s1 := { s with suggestedAnnotations := [], hasSuggestion := false }
  match fetched with
  | .ok anns =>
    if anns.length > 0 then
      { s1 with
        annotationsMap := setMap s1.annotationsMap (currentFilename s1) anns }
    else runInferenceStart s1
  | .error _ => runInferenceStart s1

/-- Source acceptSuggestedAnnotations (lines 853-880): guard, replace-or-push
of every suggested annotation into the store of the current file, then the
suggestion state is cleared. -/
def acceptSuggestedAnnotations (s : PageState) : PageState :=
  if ¬ s.hasSuggestion ∨ s.suggestedAnnotations.length = 0 then s
  else
    let file := currentFilename s
    let store := getMap s.annotationsMap file
    let merged := s.suggestedAnnotations.foldl upsert store
    { s with annotationsMap := setMap s.annotationsMap file merged,
             suggestedAnnotations := [], hasSuggestion := false,
             message := "Suggested annotations accepted!",
             messageType := "success" }

/-- Source dismissSuggestion (lines 882-886). -/
def dismissSuggestion (s : PageState) : PageState :=
  { s with suggestedAnnotations := [], hasSuggestion := false }

/-- Start position used by Array.prototype.splice: a negative start counts
from the end and is clamped to zero, a start beyond the length is clamped to
the length. -/
def spliceStart (len : Nat) (index : Int) : Nat :=
  if index < 0 then ((len : Int) + index).toNat
  else min index.toNat len

/-- Effect of arr.splice(index, 1): removes the element at the clamped start
position, if there is one. -/
def spliceRemoveOne (l : List Annotation) (index : Int) : List Annotation :=
  let start := spliceStart l.length index
  l.take start ++ l.drop (start + 1)

/-- Source deleteAnnotation (lines 749-752): a bare splice(index, 1) on the
current file entry of the map; no index validation and no message. The
drawCanvas call that follows only redraws. -/
def deleteAnnotation (s : PageState) (index : Int) : PageState :=
  { s with
    annotationsMap := setMap s.annotationsMap (currentFilename s)
      (spliceRemoveOne (currentAnnotations s) index) }

/-- Observable effects of the navigation handlers, listed in the order the
handler performs and awaits them. -/
inductive NavEvent
  | save (filename : String)
  | setIndex (newIndex : Nat)
  | loadInfo (filename : String)
  | loadSliceOf (filename : String)
  | loadAnnotationsOf (filename : String)
  deriving DecidableEq, Repr

/-- Auto-save guard shared by the navigation handlers (lines 780-783, 793-796
and 889-892): a save of the current file is issued and awaited only when its
annotation list is non-empty. -/
def navSaveEvents (s : PageState) : List NavEvent :=
  if 0 < (currentAnnotations s).length then [NavEvent.save (currentFilename s)]
  else []

/-- Reload sequence every navigation path awaits after the index change:
loadImageInfo, loadSlice, loadExistingAnnotations of the new current file. -/
def navReloadEvents (s : PageState) : List NavEvent :=
  [NavEvent.loadInfo (currentFilename s),
   NavEvent.loadSliceOf (currentFilename s),
   NavEvent.loadAnnotationsOf (currentFilename s)]

/-- Source nextImage (lines 791-802): bounds guard, auto-save of the departed
file, index increment, reloads. Returns the new state and the event trace. -/
def nextImage (s : PageState) : PageState × List NavEvent :=
  if s.currentIndex < s.images.length - 1 then
    let pre := navSaveEvents s
    let s1 := { s with currentIndex := s.currentIndex + 1 }
    (s1, pre ++ [NavEvent.setIndex s1.currentIndex] ++ navReloadEvents s1)
  else (s, [])

/-- Source prevImage (lines 778-789). -/
def prevImage (s : PageState) : PageState × List NavEvent :=
  if 0 < s.currentIndex then
    let pre := navSaveEvents s
    let s1 := { s with currentIndex := s.currentIndex - 1 }
    (s1, pre ++ [NavEvent.setIndex s1.currentIndex] ++ navReloadEvents s1)
  else (s, [])

/-- Source onFileSelect (lines 888-896) together with the v-model binding of
the file selector (line 177). In Vue 3 the v-model directive registers its
change listener in its created hook, before the onChange prop is patched onto
the element, so when onFileSelect runs, currentIndex already holds the newly
selected index; the auto-save guard therefore reads the newly selected file,
not the departed one. -/
def onFileSelect (s : PageState) (newIndex : Nat) : PageState × List NavEvent :=
  let s1 := { s with currentIndex := newIndex }
  (s1, [NavEvent.setIndex newIndex] ++ navSaveEvents s1 ++ navReloadEvents s1)

/-- Blank component state used as the base of the concrete scenarios below. -/
def blankState : PageState :=
  { images := [], currentIndex := 0, currentAxis := Axis.sagittal,
    sliceIndex := 0, maxSliceIndex := 0, imageInfo := none, currentLabel := "",
    annotationsMap := [], suggestedAnnotations := [], suggestedZIndex := none,
    isLoadingSuggestion := false, hasSuggestion := false, message := "",
    messageType := "success" }

/-- Concrete annotation used by the round-trip witness. -/
def c1ann : Annotation := ⟨"L1", 5, 7, 7⟩

/-- State of the C2 scenario: axial axis, slice 7, label L1, metadata
(10, 20, 30) loaded, no annotations yet. -/
def c2State : PageState :=
  { blankState with
    images := ["scan.nii.gz"], currentAxis := Axis.axial,
    sliceIndex := 7, maxSliceIndex := 29, imageInfo := some ⟨10, 20, 30⟩,
    currentLabel := "L1" }

/-- Upsert sequence exercising the duplicate-label path for the C3 witness. -/
def c3ops : List Annotation :=
  [⟨"L1", 1, 2, 3⟩, ⟨"L2", 4, 5, 6⟩, ⟨"L1", 9, 9, 9⟩]

/-- State of the C4 scenario: the current file a.nii.gz holds one annotation,
the target file b.nii.gz holds none. -/
def c4State : PageState :=
  { blankState with
    images := ["a.nii.gz", "b.nii.gz"], currentLabel := "L1",
    annotationsMap := [("a.nii.gz", [⟨"L1", 1, 2, 3⟩])] }

/-- Response of the inference issued for a.nii.gz in the C5 scenario. -/
def c5resp : InferenceResponse := ⟨true, [⟨"S1", 3, 4, 5⟩], 12⟩

/-- Initial state of the C5 scenario: viewing a.nii.gz on the axial axis. -/
def c5State0 : PageState :=
  { blankState with
    images := ["a.nii.gz", "b.nii.gz"],
    currentAxis := Axis.axial, imageInfo := some ⟨10, 20, 30⟩,
    maxSliceIndex := 29, sliceIndex := 14 }

/-- C5 scenario after runInference starts for a.nii.gz. -/
def c5AfterStart : PageState := runInferenceStart c5State0

/-- C5 scenario after the user switches to b.nii.gz while the inference is in
flight: the index changes and loadExistingAnnotations runs for b.nii.gz,
finding one stored annotation. -/
def c5AfterSwitch : PageState :=
  loadExistingAnnotations { c5AfterStart with currentIndex := 1 }
    (Except.ok [⟨"L1", 0, 0, 0⟩])

/-- C5 scenario after the stale response for a.nii.gz resolves. -/
def c5Final : PageState := runInferenceResolve c5AfterSwitch (Except.ok c5resp)

/-- State of the C6 scenario: the store already holds (L2, 9, 9, 9) and the
suggestion set proposes (L2, 1, 2, 3). -/
def c6State : PageState :=
  { blankState with
    images := ["a.nii.gz"],
    annotationsMap := [("a.nii.gz", [⟨"L2", 9, 9, 9⟩])],
    suggestedAnnotations := [⟨"L2", 1, 2, 3⟩], hasSuggestion := true }

/-- State of the C8 scenario: one stored annotation for the current file. -/
def c8State : PageState :=
  { blankState with
    images := ["a.nii.gz"],
    annotationsMap := [("a.nii.gz", [⟨"L1", 1, 2, 3⟩])] }

/-! Helper lemmas about the replace-by-label insertion. -/

theorem upsert_nil (a : Annotation) : upsert [] a = [a] := rfl

theorem upsert_cons (b : Annotation) (l : List Annotation) (a : Annotation) :
    upsert (b :: l) a =
      if b.label == a.label then a :: l else b :: upsert l a := by
  unfold upsert findIndexLabel
  cases hb : (b.label == a.label) with
  | false =>
    simp only [List.findIdx?_cons, hb, Bool.false_eq_true, if_false,
      List.findIdx?_start_succ]
    cases hfi : List.findIdx? (fun ann => ann.label == a.label) l with
    | none => simp
    | some i =>
      simp only [Option.map_some, Nat.zero_add]
      simp [List.set]
      intro hlt
      exfalso
      omega
  | true =>
    simp [List.findIdx?_cons, hb]

theorem upsert_label_mem {store : List Annotation} {a : Annotation}
    (h : a.label ∈ store.map (·.label)) :
    (upsert store a).map (·.label) = store.map (·.label) := by
  induction store with
  | nil => simp at h
  | cons b l ih =>
    rw [upsert_cons]
    cases hb : (b.label == a.label) with
    | false =>
      have hb2 : b.label ≠ a.label := by simpa using hb
      simp only [List.map_cons, List.mem_cons] at h
      rcases h with h | h
      · exact absurd h.symm hb2
      · simp [hb, ih h]
    | true => simp_all

theorem upsert_label_not_mem {store : List Annotation} {a : Annotation}
    (h : a.label ∉ store.map (·.label)) :
    (upsert store a).map (·.label) = store.map (·.label) ++ [a.label] := by
  induction store with
  | nil => simp [upsert_nil]
  | cons b l ih =>
    rw [upsert_cons]
    simp only [List.map_cons, List.mem_cons] at h
    push_neg at h
    have hb : (b.label == a.label) = false := by
      rw [beq_eq_false_iff_ne]
      exact fun hbl => h.1 hbl.symm
    simp [hb, ih h.2]

theorem upsert_nodup {store : List Annotation} {a : Annotation}
    (h : (store.map (·.label)).Nodup) :
    ((upsert store a).map (·.label)).Nodup := by
  by_cases hm : a.label ∈ store.map (·.label)
  · rw [upsert_label_mem hm]; exact h
  · rw [upsert_label_not_mem hm]
    simp [List.nodup_append, h, hm]

theorem foldl_upsert_nodup (ops : List Annotation) :
    ∀ start : List Annotation, (start.map (·.label)).Nodup →
      ((ops.foldl upsert start).map (·.label)).Nodup := by
  induction ops with
  | nil => intro start h; simpa using h
  | cons a rest ih => intro start h; exact ih _ (upsert_nodup h)

/-- C1: for every axis, an annotation whose axis-fixed coordinate equals the
current slice index is mapped to canvas pixels by getCanvasPosFromAnnotation
and back through the pixel-to-volume conversion of handleCanvasClick (same
axis, slice index and raster height h) to exactly its original volume
coordinates: the round-trip is the identity on the two axis-varying
coordinates, and the axis-fixed coordinate is the slice index. -/
theorem c1_roundtrip (axis : Axis) (h sliceIdx : Int) (ann : Annotation)
    (hvis : getSliceIndexFromAnnotation axis ann = sliceIdx) :
    clickToVolume axis sliceIdx ( getCanvasPosFromAnnotation axis h ann).x
      ( getCanvasPosFromAnnotation axis h ann).y h = (ann.x, ann.y, ann.z) := by
  cases axis <;>
    simp only [ getSliceIndexFromAnnotation] at hvis <;>
    subst hvis <;>
    simp [ getCanvasPosFromAnnotation, clickToVolume, Prod.mk.injEq]

/-- C1 witness: the round trip at the concrete annotation (L1, 5, 7, 7) on the
axial axis at slice 7 with raster height 30. -/
theorem c1_roundtrip_witness :
    clickToVolume Axis.axial 7 ( getCanvasPosFromAnnotation Axis.axial 30 c1ann).x
      ( getCanvasPosFromAnnotation Axis.axial 30 c1ann).y 30 = (5, 7, 7) :=
  c1_roundtrip Axis.axial 30 7 c1ann (by decide)

/-- C2: with metadata (10, 20, 30), the axial axis at slice 7, label L1 and
raster height 30, a click at raw pixel (5, 22) stores exactly the annotation
(L1, 5, 7, 7) for the current file. -/
theorem c2_click_axial :
    getMap (handleCanvasClick c2State 5 22 30).annotationsMap "scan.nii.gz" =
      [⟨"L1", 5, 7, 7⟩] := by decide

/-- C3: starting from a store whose labels are distinct (the empty store in
particular), any sequence of replace-by-label upserts — the only mutation
performed by manual clicks and by accepting suggestions — keeps the labels
distinct at every observable point, so the number of distinct labels equals
the length of the collection. -/
theorem c3_upsert_invariant (start ops : List Annotation)
    (hstart : (start.map (·.label)).Nodup) :
    ((ops.foldl upsert start).map (·.label)).Nodup ∧
    ((ops.foldl upsert start).map (·.label)).dedup.length =
      (ops.foldl upsert start).length := by
  have h1 := foldl_upsert_nodup ops start hstart
  refine ⟨h1, ?_⟩
  rw [h1.dedup, List.length_map]

/-- C3 witness: a concrete sequence of three upserts, the third reusing the
label L1, evaluated from the empty store. -/
theorem c3_upsert_invariant_witness :
    ((c3ops.foldl upsert []).map (·.label)).Nodup ∧
    ((c3ops.foldl upsert []).map (·.label)).dedup.length =
      (c3ops.foldl upsert []).length :=
  c3_upsert_invariant [] c3ops (by decide)

/-- C4 evaluated at the failing input: the departed file a.nii.gz holds one
annotation, yet selecting b.nii.gz directly from the file list produces a
trace whose first event is the index change and which contains no save event
at all, because the v-model listener has already moved currentIndex to the new
file when the auto-save guard of onFileSelect reads currentAnnotations. -/
theorem c4_direct_select_no_save :
    currentAnnotations c4State = [⟨"L1", 1, 2, 3⟩] ∧
    (onFileSelect c4State 1).2 =
      [NavEvent.setIndex 1, NavEvent.loadInfo "b.nii.gz",
       NavEvent.loadSliceOf "b.nii.gz", NavEvent.loadAnnotationsOf "b.nii.gz"] := by
  decide

/-- C5 evaluated at the failing input: switching to b.nii.gz while the
inference issued for a.nii.gz is in flight does reset the visible suggestion
state of the new file to absent, but when the stale response later resolves,
runInferenceResolve installs it unconditionally — the new file ends up with
hasSuggestion true and the old response as its suggestion set, contradicting
the requirement that the stale response not populate the new file. -/
theorem c5_stale_response_applied :
    c5AfterSwitch.hasSuggestion = false ∧
    c5AfterSwitch.suggestedAnnotations = [] ∧
    currentFilename c5Final = "b.nii.gz" ∧
    c5Final.hasSuggestion = true ∧
    c5Final.suggestedAnnotations = [⟨"S1", 3, 4, 5⟩] := by
  decide

/-- C6: accepting the suggestion set [(L2, 1, 2, 3)] over a store holding
(L2, 9, 9, 9) replaces it by label — the store ends with exactly the one
entry (L2, 1, 2, 3) — and the suggestion state transitions to absent. -/
theorem c6_accept_replaces :
    getMap (acceptSuggestedAnnotations c6State).annotationsMap "a.nii.gz" =
      [⟨"L2", 1, 2, 3⟩] ∧
    (acceptSuggestedAnnotations c6State).suggestedAnnotations = [] ∧
    (acceptSuggestedAnnotations c6State).hasSuggestion = false := by
  decide

/-- C7: entering a file with the in-flight flag clear, a fetch that returns
zero annotations triggers inference automatically (the loading flag turns on,
nothing is shown as a suggestion yet), while a fetch that returns at least one
annotation leaves the suggestion state absent: no loading, no suggestions. -/
theorem c7_auto_inference (s : PageState) (anns : List Annotation)
    (habsent : s.isLoadingSuggestion = false) (hne : anns ≠ []) :
    ((loadExistingAnnotations s (Except.ok [])).isLoadingSuggestion = true ∧
     (loadExistingAnnotations s (Except.ok [])).hasSuggestion = false ∧
     (loadExistingAnnotations s (Except.ok [])).suggestedAnnotations = []) ∧
    ((loadExistingAnnotations s (Except.ok anns)).isLoadingSuggestion = false ∧
     (loadExistingAnnotations s (Except.ok anns)).hasSuggestion = false ∧
     (loadExistingAnnotations s (Except.ok anns)).suggestedAnnotations = []) := by
  have hlen : 0 < anns.length := List.length_pos.mpr hne
  unfold loadExistingAnnotations runInferenceStart
  simp [habsent, hlen]

/-- C7 witness: the blank state with a one-element fetch for the annotated
case and the empty fetch for the inference case. -/
theorem c7_auto_inference_witness :
    ((loadExistingAnnotations blankState (Except.ok [])).isLoadingSuggestion = true ∧
     (loadExistingAnnotations blankState (Except.ok [])).hasSuggestion = false ∧
     (loadExistingAnnotations blankState (Except.ok [])).suggestedAnnotations = []) ∧
    ((loadExistingAnnotations blankState
        (Except.ok [⟨"L1", 1, 2, 3⟩])).isLoadingSuggestion = false ∧
     (loadExistingAnnotations blankState
        (Except.ok [⟨"L1", 1, 2, 3⟩])).hasSuggestion = false ∧
     (loadExistingAnnotations blankState
        (Except.ok [⟨"L1", 1, 2, 3⟩])).suggestedAnnotations = []) :=
  c7_auto_inference blankState [⟨"L1", 1, 2, 3⟩] rfl (by decide)

theorem getMap_setMap (m : List (String × List Annotation)) (k : String)
    (v : List Annotation) : getMap (setMap m k v) k = v := by
  induction m with
  | nil => simp [getMap, setMap]
  | cons p rest ih =>
    obtain ⟨k2, v2⟩ := p
    by_cases hk : k2 = k
    · simp [getMap, setMap, hk]
    · simp [getMap, setMap, hk, ih]

theorem spliceRemoveOne_of_ge (l : List Annotation) (index : Int)
    (hge : (l.length : Int) ≤ index) : spliceRemoveOne l index = l := by
  unfold spliceRemoveOne spliceStart
  have h0 : ¬ index < 0 := by omega
  have hmin : min index.toNat l.length = l.length := by omega
  simp only [h0, if_false, hmin, List.take_length]
  rw [List.drop_eq_nil_of_le (by omega)]
  simp

theorem currentAnnotations_delete (s : PageState) (index : Int) :
    currentAnnotations ( deleteAnnotation s index) =
      spliceRemoveOne (currentAnnotations s) index := by
  simp [currentAnnotations, currentFilename, deleteAnnotation, getMap_setMap]

/-- C8 counterexample: index -1 is invalid (negative), yet deleteAnnotation
mutates the collection — JavaScript splice counts a negative start from the
end, so the last annotation is removed — and no message of any kind is
surfaced; the claimed rejection before mutation with an IndexOutOfRange error
does not happen. -/
theorem c8_counterexample :
    currentAnnotations c8State = [⟨"L1", 1, 2, 3⟩] ∧
    currentAnnotations ( deleteAnnotation c8State (-1)) = [] ∧
    ( deleteAnnotation c8State (-1)).message = c8State.message ∧
    ( deleteAnnotation c8State (-1)).messageType = c8State.messageType := by
  decide

/-- C8 amended: deleteAnnotation performs no validation and never surfaces a
message; an index at or beyond the collection length leaves the collection
unchanged, silently — while a negative index follows JavaScript splice
semantics and can remove an element counted from the end, as the
counterexample shows. -/
theorem c8_amended_delete (s : PageState) (index : Int)
    (hge : ((currentAnnotations s).length : Int) ≤ index) :
    currentAnnotations ( deleteAnnotation s index) = currentAnnotations s ∧
    ( deleteAnnotation s index).message = s.message ∧
    ( deleteAnnotation s index).messageType = s.messageType := by
  refine ⟨?_, ?_, ?_⟩
  · rw [currentAnnotations_delete, spliceRemoveOne_of_ge _ _ hge]
  · simp [ deleteAnnotation]
  · simp [ deleteAnnotation]

/-- C8 amended witness: deleting at index 5 from the one-element collection
changes nothing and shows no message. -/
theorem c8_amended_delete_witness :
    currentAnnotations ( deleteAnnotation c8State 5) = currentAnnotations c8State ∧
    ( deleteAnnotation c8State 5).message = c8State.message ∧
    ( deleteAnnotation c8State 5).messageType = c8State.messageType :=
  c8_amended_delete c8State 5 (by decide)

theorem binarizeValue_eq (t : Int) (r g b : Nat) :
    binarizeValue t r g b =
      if 3 * t < (r : Int) + (g : Int) + (b : Int) then 255 else 0 := by
  unfold binarizeValue
  have h3 : (0 : Rat) < 3 := by norm_num
  have key : (((r : Rat) + (g : Rat) + (b : Rat)) / 3 > (t : Rat)) ↔
      3 * t < (r : Int) + (g : Int) + (b : Int) := by
    rw [gt_iff_lt, lt_div_iff₀ h3]
    constructor
    · intro hlt
      have hc : ((3 * t : Int) : Rat) <
          (((r : Int) + (g : Int) + (b : Int) : Int) : Rat) := by
        push_cast
        linarith
      exact_mod_cast hc
    · intro hlt
      have hc : ((3 * t : Int) : Rat) <
          (((r : Int) + (g : Int) + (b : Int) : Int) : Rat) := by
        exact_mod_cast hlt
      push_cast at hc
      linarith
  simp only [key]

/-- C9: applyBinarize treats each RGBA pixel through the mean of its three
color channels — strictly above the threshold yields pure white, anything
else yields pure black, with the alpha byte preserved: the white condition
mean greater than t is exactly 3t less than r plus g plus b; a mean exactly
equal to the threshold gives black; and at threshold 128 the pixel
(100, 100, 100) turns black while (200, 200, 200) turns white. -/
theorem c9_binarize_spec (t : Int) (r g b a : Nat) (rest : List Nat) :
    applyBinarize 128 [100, 100, 100, 255] = [0, 0, 0, 255] ∧
    applyBinarize 128 [200, 200, 200, 255] = [255, 255, 255, 255] ∧
    applyBinarize t (r :: g :: b :: a :: rest) =
      (if 3 * t < (r : Int) + (g : Int) + (b : Int) then 255 else 0) ::
      (if 3 * t < (r : Int) + (g : Int) + (b : Int) then 255 else 0) ::
      (if 3 * t < (r : Int) + (g : Int) + (b : Int) then 255 else 0) ::
      a :: applyBinarize t rest ∧
    ((r : Int) + (g : Int) + (b : Int) = 3 * t →
      applyBinarize t (r :: g :: b :: a :: rest) =
        0 :: 0 :: 0 :: a :: applyBinarize t rest) := by
  have step : applyBinarize t (r :: g :: b :: a :: rest) =
      binarizeValue t r g b :: binarizeValue t r g b :: binarizeValue t r g b ::
        a :: applyBinarize t rest := rfl
  have step100 : applyBinarize 128 [100, 100, 100, 255] =
      binarizeValue 128 100 100 100 :: binarizeValue 128 100 100 100 ::
        binarizeValue 128 100 100 100 :: 255 :: applyBinarize 128 [] := rfl
  have step200 : applyBinarize 128 [200, 200, 200, 255] =
      binarizeValue 128 200 200 200 :: binarizeValue 128 200 200 200 ::
        binarizeValue 128 200 200 200 :: 255 :: applyBinarize 128 [] := rfl
  refine ⟨?_, ?_, ?_, ?_⟩
  · rw [step100, binarizeValue_eq]
    norm_num [applyBinarize]
  · rw [step200, binarizeValue_eq]
    norm_num [applyBinarize]
  · rw [step, binarizeValue_eq]
  · intro heq
    rw [step, binarizeValue_eq]
    have hnlt : ¬ 3 * t < (r : Int) + (g : Int) + (b : Int) := by omega
    simp [hnlt]

/-- C9 witness: a pixel whose channel mean equals the threshold exactly
(channels all 7, threshold 7) maps to pure black. -/
theorem c9_binarize_spec_witness :
    applyBinarize 7 [7, 7, 7, 200] = 0 :: 0 :: 0 :: 200 :: applyBinarize 7 [] :=
  (c9_binarize_spec 7 7 7 7 200 []).2.2.2 (by decide)

/-- C10: changing the viewing axis, and storing freshly fetched metadata on
entering a file, both reset the slice index to the middle slice
floor((range - 1) / 2) of the active axis, and the result never depends on
the slice index held before. -/
theorem c10_middle_slice (s : PageState) (axis : Axis) (info : ImageInfo)
    (j : Int) (hinfo : s.imageInfo = some info) :
    (changeAxis s axis).sliceIndex = Int.fdiv (axisRange axis info - 1) 2 ∧
    (loadImageInfoSuccess s info).sliceIndex =
      Int.fdiv (axisRange s.currentAxis info - 1) 2 ∧
    (changeAxis { s with sliceIndex := j } axis).sliceIndex =
      (changeAxis s axis).sliceIndex ∧
    (loadImageInfoSuccess { s with sliceIndex := j } info).sliceIndex =
      (loadImageInfoSuccess s info).sliceIndex := by
  unfold changeAxis loadImageInfoSuccess updateMaxSliceIndex
  simp [hinfo]

/-- C10 witness: switching the C2 state (metadata (10, 20, 30), slice 7) to
the coronal axis lands on slice 9, and reloading the metadata on the axial
axis lands on slice 14, independent of a previous slice index 999. -/
theorem c10_middle_slice_witness :
    (changeAxis c2State Axis.coronal).sliceIndex =
      Int.fdiv (axisRange Axis.coronal ⟨10, 20, 30⟩ - 1) 2 ∧
    (loadImageInfoSuccess c2State ⟨10, 20, 30⟩).sliceIndex =
      Int.fdiv (axisRange c2State.currentAxis ⟨10, 20, 30⟩ - 1) 2 ∧
    (changeAxis { c2State with sliceIndex := 999 } Axis.coronal).sliceIndex =
      (changeAxis c2State Axis.coronal).sliceIndex ∧
    (loadImageInfoSuccess { c2State with sliceIndex := 999 } ⟨10, 20, 30⟩).sliceIndex =
      (loadImageInfoSuccess c2State ⟨10, 20, 30⟩).sliceIndex :=
  c10_middle_slice c2State Axis.coronal ⟨10, 20, 30⟩ 999 (by decide)

end CenterAnnotation
